import Mathlib

/-!
Shallow embedding of the dependency-injection core of the `automata`
repository (`src/backend/core/di/` and `src/backend/core/services/base.py`).

Modelling conventions:
* Python objects are identified by `Nat` ids; constructing a new object
  (calling a class or a zero-argument factory) allocates a fresh id from an
  explicit counter threaded through the operations.
* Python `dict`s are association lists; assignment `d[k] = v` is
  `pyDictInsert`, which removes any earlier binding of `k` and puts the new
  binding in front, and `k in d` / `d[k]` is `List.lookup`.
* A function that can raise returns `Except String`; a `try/except` block
  in the source becomes a `match` on that result.
* Logging calls are ignored (they have no effect on the state the
  specification talks about).
-/

/-- Python dict assignment `d[k] = v`: the new binding shadows and removes
any previous binding of `k`. -/
def pyDictInsert {α β : Type} [BEq α] (l : List (α × β)) (k : α) (v : β) :
    List (α × β) :=
  (k, v) :: l.filter (fun p => !(p.1 == k))

/-! ## Container (`src/backend/core/di/container.py`) -/

/-- The three tables of `Container.__init__`: `_services` (singleton class
registrations), `_singletons` (cached / pre-built instances), `_factories`
(non-singleton registrations and explicit factories).  Capabilities
(interface types), implementation classes and factories are identified by
`Nat` ids. -/
structure Container where
  services   : List (Nat × Nat)
  singletons : List (Nat × Nat)
  factories  : List (Nat × Nat)
deriving DecidableEq, Repr

/-- `Container()` with the three empty tables. -/
def Container.empty : Container := ⟨[], [], []⟩

/-- `Container.register(interface, implementation, singleton)`. -/
def Container.register (c : Container) (iface impl : Nat) (singleton : Bool) :
    Container :=
  if singleton then
    { c with services := pyDictInsert c.services iface impl }
  else
    { c with factories := pyDictInsert c.factories iface impl }

/-- `Container.register_instance(interface, instance)`. -/
def Container.register_instance (c : Container) (iface inst : Nat) : Container :=
  { c with singletons := pyDictInsert c.singletons iface inst }

/-- `Container.register_factory(interface, factory)`. -/
def Container.register_factory (c : Container) (iface fac : Nat) : Container :=
  { c with factories := pyDictInsert c.factories iface fac }

/-- `Container.is_registered(interface)`. -/
def Container.is_registered (c : Container) (iface : Nat) : Bool :=
  (c.services.lookup iface).isSome || (c.singletons.lookup iface).isSome ||
    (c.factories.lookup iface).isSome

/-- `Container.clear()`. -/
def Container.clear (_c : Container) : Container := ⟨[], [], []⟩

/-- `Container.resolve(interface)`.  `ctr` is the fresh-object allocator:
calling a class or a factory constructs a new object whose id is the current
counter value.  Mirrors the source line by line: the cached-singleton table
is consulted first; then a singleton class registration is constructed and
cached (the source re-checks `interface not in self._singletons`, which is
redundant at that point but embedded faithfully); then a factory is called
without caching; otherwise a `ValueError` is raised. -/
def Container.resolve (c : Container) (iface : Nat) (ctr : Nat) :
    Except String (Nat × Container × Nat) :=
  match c.singletons.lookup iface with
  | some inst => .ok (inst, c, ctr)
  | none =>
    match c.services.lookup iface with
    | some _impl =>
      let c' :=
        if (c.singletons.lookup iface).isNone then
          { c with singletons := pyDictInsert c.singletons iface ctr }
        else c
      match c'.singletons.lookup iface with
      | some inst => .ok (inst, c', ctr + 1)
      | none => .error "KeyError"
    | none =>
      match c.factories.lookup iface with
      | some _fac => .ok (ctr, c, ctr + 1)
      | none => .error ("Service " ++ toString iface ++ " is not registered")

/-! ## Basic lookup lemmas -/

theorem lookup_pyDictInsert_self {α β : Type} [BEq α] [LawfulBEq α]
    (l : List (α × β)) (k : α) (v : β) :
    (pyDictInsert l k v).lookup k = some v := by
  simp [pyDictInsert, List.lookup]

theorem lookup_filter_none {α β : Type} [BEq α] (l : List (α × β))
    (k : α) (p : α × β → Bool) (h : l.lookup k = none) :
    (l.filter p).lookup k = none := by
  induction l with
  | nil => simp
  | cons q rest ih =>
    unfold List.lookup at h
    cases hk : k == q.1 with
    | true => simp [hk] at h
    | false =>
      rw [hk] at h
      by_cases hp : p q = true
      · simp [List.filter, hp, List.lookup, hk]
        exact ih h
      · simp only [List.filter, Bool.not_eq_true] at hp ⊢
        rw [hp]
        exact ih h

theorem lookup_pyDictInsert_ne {α β : Type} [BEq α]
    (l : List (α × β)) (k k' : α) (v : β) (hne : (k' == k) = false)
    (h : l.lookup k' = none) :
    (pyDictInsert l k v).lookup k' = none := by
  simp only [pyDictInsert, List.lookup, hne]
  exact lookup_filter_none _ _ _ h

/-! ## Claim theorems for the Container -/

/-- C1: `Container.resolve` precedence and failure behaviour.
(1) A cached / pre-built instance wins, and the state is untouched.
(2) Otherwise a singleton class registration is constructed once and the
    instance is cached; a subsequent `resolve` returns the same instance
    with no further change.
(3) Otherwise a factory registration constructs a fresh, uncached instance:
    the container is unchanged and resolving twice yields distinct objects.
(4) With no entry in any table, `resolve` fails with a "not registered"
    `ValueError`.
(5) After `register_instance(c, x)`, `resolve(c)` returns exactly `x` and
    leaves the container unchanged, hence every subsequent call also
    returns `x`. -/
theorem container_resolve_precedence
    (c : Container) (iface ctr : Nat) :
    (∀ x, c.singletons.lookup iface = some x →
      c.resolve iface ctr = .ok (x, c, ctr)) ∧
    (∀ impl, c.singletons.lookup iface = none →
      c.services.lookup iface = some impl →
      ∃ c', c.resolve iface ctr = .ok (ctr, c', ctr + 1) ∧
        c'.singletons.lookup iface = some ctr ∧
        (∀ ctr', c'.resolve iface ctr' = .ok (ctr, c', ctr'))) ∧
    (∀ fac, c.singletons.lookup iface = none →
      c.services.lookup iface = none →
      c.factories.lookup iface = some fac →
      c.resolve iface ctr = .ok (ctr, c, ctr + 1) ∧
        c.resolve iface (ctr + 1) = .ok (ctr + 1, c, ctr + 2) ∧ ctr ≠ ctr + 1) ∧
    (c.singletons.lookup iface = none →
      c.services.lookup iface = none →
      c.factories.lookup iface = none →
      c.resolve iface ctr =
        .error ("Service " ++ toString iface ++ " is not registered")) ∧
    (∀ x, (c.register_instance iface x).resolve iface ctr =
      .ok (x, c.register_instance iface x, ctr)) := by
  refine ⟨?_, ?_, ?_, ?_, ?_⟩
  · intro x hx
    simp [Container.resolve, hx]
  · intro impl hs hi
    refine ⟨{ c with singletons := pyDictInsert c.singletons iface ctr }, ?_, ?_, ?_⟩
    · simp [Container.resolve, hs, hi, lookup_pyDictInsert_self]
    · exact lookup_pyDictInsert_self _ _ _
    · intro ctr'
      simp [Container.resolve, lookup_pyDictInsert_self]
  · intro fac hs hi hf
    refine ⟨?_, ?_, by omega⟩ <;> simp [Container.resolve, hs, hi, hf]
  · intro hs hi hf
    simp [Container.resolve, hs, hi, hf]
  · intro x
    simp [Container.resolve, Container.register_instance,
      lookup_pyDictInsert_self]

/-- Witness for C1 at a concrete container: capability `7` registered as a
singleton class, capability `8` as a factory, capability `9` absent,
instance `5` pre-registered under capability `3`. -/
theorem container_resolve_precedence_witness :
    let c : Container := ⟨[(7, 100)], [(3, 5)], [(8, 200)]⟩
    c.resolve 3 0 = .ok (5, c, 0) ∧
    c.resolve 9 0 = .error ("Service " ++ toString 9 ++ " is not registered") ∧
    (c.register_instance 4 42).resolve 4 0 =
      .ok (42, c.register_instance 4 42, 0) := by
  intro c
  refine ⟨(container_resolve_precedence c 3 0).1 5 (by decide), ?_, ?_⟩
  · exact (container_resolve_precedence c 9 0).2.2.2.1 (by decide) (by decide)
      (by decide)
  · exact (container_resolve_precedence c 4 0).2.2.2.2 42

/-- C9: once a capability has an instance in the `_singletons` table, a
later `register(c, other, singleton=true)` does not change what
`resolve(c)` returns (the cached instance keeps winning), whereas a later
`register_instance(c, y)` immediately makes `resolve(c)` return `y`. -/
theorem container_cached_instance_shadows_register
    (c : Container) (iface x ctr : Nat)
    (hx : c.singletons.lookup iface = some x) :
    (∀ impl, (c.register iface impl true).resolve iface ctr =
      .ok (x, c.register iface impl true, ctr)) ∧
    (∀ y, (c.register_instance iface y).resolve iface ctr =
      .ok (y, c.register_instance iface y, ctr)) := by
  constructor
  · intro impl
    simp [Container.resolve, Container.register, hx]
  · intro y
    simp [Container.resolve, Container.register_instance,
      lookup_pyDictInsert_self]

/-- Witness for C9: capability `3` has cached instance `5`; registering
class `77` as a singleton does not change resolution, while
`register_instance 3 9` does. -/
theorem container_cached_instance_shadows_register_witness :
    let c : Container := ⟨[], [(3, 5)], []⟩
    (c.register 3 77 true).resolve 3 0 = .ok (5, c.register 3 77 true, 0) ∧
    (c.register_instance 3 9).resolve 3 0 =
      .ok (9, c.register_instance 3 9, 0) := by
  intro c
  exact ⟨(container_cached_instance_shadows_register c 3 5 0 (by decide)).1 77,
    (container_cached_instance_shadows_register c 3 5 0 (by decide)).2 9⟩

/-! ## SingletonFactory and SingletonRegistry
(`src/backend/core/di/singleton_factory.py`) -/

/-- `SingletonFactory`: a factory function (identified by `factoryId`) plus
the lazily cached instance `_instance` (`none` = Python `None`). -/
structure SingletonFactory where
  factoryId : Nat
  cached : Option Nat
deriving DecidableEq, Repr

/-- `create_singleton_factory(factory_func)`: a fresh factory with no
cached instance. -/
def create_singleton_factory (factoryId : Nat) : SingletonFactory :=
  ⟨factoryId, none⟩

/-- `SingletonFactory.get_instance()`: lazily constructs on first call (the
construction allocates a fresh object id from `ctr`) and memoizes. -/
def SingletonFactory.get_instance (f : SingletonFactory) (ctr : Nat) :
    Nat × SingletonFactory × Nat :=
  match f.cached with
  | some i => (i, f, ctr)
  | none => (ctr, { f with cached := some ctr }, ctr + 1)

/-- `SingletonFactory.reset_instance()`. -/
def SingletonFactory.reset_instance (f : SingletonFactory) : SingletonFactory :=
  { f with cached := none }

/-- `SingletonRegistry`: the name-keyed table `_factories`. -/
structure SingletonRegistry where
  factories : List (String × SingletonFactory)
deriving DecidableEq, Repr

/-- `SingletonRegistry.register_factory(name, factory)`: plain dict
assignment, overwriting any factory previously stored under `name`. -/
def SingletonRegistry.register_factory (r : SingletonRegistry) (name : String)
    (f : SingletonFactory) : SingletonRegistry :=
  ⟨pyDictInsert r.factories name f⟩

/-- `SingletonRegistry.get_instance(name)`: `KeyError` if `name` has no
factory; otherwise delegates to the factory, whose in-place mutation is
modelled by writing the updated factory back under `name`. -/
def SingletonRegistry.get_instance (r : SingletonRegistry) (name : String)
    (ctr : Nat) : Except String (Nat × SingletonRegistry × Nat) :=
  match r.factories.lookup name with
  | none => .error ("Singleton factory " ++ name ++ " not registered")
  | some f =>
    let (i, f', ctr') := f.get_instance ctr
    .ok (i, ⟨pyDictInsert r.factories name f'⟩, ctr')

/-- `SingletonRegistry.reset_instance(name)`: clears the cached instance of
the factory stored under `name`, if any. -/
def SingletonRegistry.reset_instance (r : SingletonRegistry) (name : String) :
    SingletonRegistry :=
  match r.factories.lookup name with
  | none => r
  | some f => ⟨pyDictInsert r.factories name f.reset_instance⟩

/-- The instance id returned by a `SingletonRegistry.get_instance` result,
if the call succeeded. -/
def getInstanceResult (e : Except String (Nat × SingletonRegistry × Nat)) :
    Option Nat :=
  match e with
  | .ok (i, _, _) => some i
  | .error _ => none

theorem pyDictInsert_idem {α β : Type} [BEq α] [LawfulBEq α]
    (l : List (α × β)) (k : α) (v v' : β) :
    pyDictInsert (pyDictInsert l k v') k v = pyDictInsert l k v := by
  simp [pyDictInsert, List.filter_filter]

/-- C8: for a name `n` whose factory is registered (with any cached object
older than the allocator counter), `get_instance` twice returns the same
object and reaches a fixed point; after `reset_instance`, the next
`get_instance` constructs a fresh object distinct from the first; and
`get_instance` of a never-registered name `m` fails with a
"not registered" `KeyError`. -/
theorem singleton_registry_memoize_and_reset
    (r : SingletonRegistry) (n m : String) (f : SingletonFactory) (ctr : Nat)
    (hf : r.factories.lookup n = some f)
    (hbound : ∀ j, f.cached = some j → j < ctr)
    (hm : r.factories.lookup m = none) :
    (∃ i r1 c1,
      r.get_instance n ctr = .ok (i, r1, c1) ∧
      r1.get_instance n c1 = .ok (i, r1, c1) ∧
      i < c1 ∧
      ∃ r3, (r1.reset_instance n).get_instance n c1 =
        .ok (c1, r3, c1 + 1) ∧ c1 ≠ i) ∧
    r.get_instance m ctr =
      .error ("Singleton factory " ++ m ++ " not registered") := by
  constructor
  · match hc : f.cached with
    | some j =>
      have hj : j < ctr := hbound j hc
      refine ⟨j, ⟨pyDictInsert r.factories n f⟩, ctr, ?_, ?_, hj, ?_⟩
      · simp [SingletonRegistry.get_instance, hf,
          SingletonFactory.get_instance, hc]
      · simp [SingletonRegistry.get_instance, lookup_pyDictInsert_self,
          SingletonFactory.get_instance, hc, pyDictInsert_idem]
      · refine ⟨⟨pyDictInsert (pyDictInsert r.factories n f.reset_instance) n
          { f.reset_instance with cached := some ctr }⟩, ?_, by omega⟩
        simp [SingletonRegistry.reset_instance, lookup_pyDictInsert_self,
          SingletonRegistry.get_instance, pyDictInsert_idem,
          SingletonFactory.reset_instance, SingletonFactory.get_instance]
    | none =>
      refine ⟨ctr, ⟨pyDictInsert r.factories n { f with cached := some ctr }⟩,
        ctr + 1, ?_, ?_, by omega, ?_⟩
      · simp [SingletonRegistry.get_instance, hf,
          SingletonFactory.get_instance, hc]
      · simp [SingletonRegistry.get_instance, lookup_pyDictInsert_self,
          SingletonFactory.get_instance, pyDictInsert_idem]
      · refine ⟨⟨pyDictInsert
          (pyDictInsert (pyDictInsert r.factories n { f with cached := some ctr })
            n { f with cached := some ctr }.reset_instance) n
          { { f with cached := some ctr }.reset_instance with
              cached := some (ctr + 1) }⟩, ?_, by omega⟩
        simp [SingletonRegistry.reset_instance, lookup_pyDictInsert_self,
          SingletonRegistry.get_instance, SingletonFactory.reset_instance,
          SingletonFactory.get_instance]
  · simp [SingletonRegistry.get_instance, hm]

/-- Witness for C8 at the one-entry registry `{"x" ↦ fresh factory}`,
probing the absent name `"y"`. -/
theorem singleton_registry_memoize_and_reset_witness :
    ((∃ i r1 c1,
      (SingletonRegistry.mk [("x", ⟨0, none⟩)]).get_instance "x" 0 =
        .ok (i, r1, c1) ∧
      r1.get_instance "x" c1 = .ok (i, r1, c1) ∧
      i < c1 ∧
      ∃ r3, (r1.reset_instance "x").get_instance "x" c1 =
        .ok (c1, r3, c1 + 1) ∧ c1 ≠ i) ∧
    (SingletonRegistry.mk [("x", ⟨0, none⟩)]).get_instance "y" 0 =
      .error ("Singleton factory " ++ "y" ++ " not registered")) :=
  singleton_registry_memoize_and_reset ⟨[("x", ⟨0, none⟩)]⟩ "x" "y" ⟨0, none⟩ 0
    (by decide) (fun j h => nomatch h) (by decide)

/-- Counterexample for C3 as stated: registry with name `"x"` whose factory
has already cached instance `5`; overwriting via
`register_factory("x", newFactory)` and then calling `get_instance("x")`
does **not** return the previously cached instance `5` (it constructs a
fresh instance from the new factory). -/
theorem singleton_register_factory_counterexample :
    getInstanceResult
      (((SingletonRegistry.mk [("x", ⟨0, some 5⟩)]).register_factory "x"
        (create_singleton_factory 1)).get_instance "x" 6) ≠ some 5 := by
  decide

/-- C3 amended: `register_factory(n, newFactory)` on a name whose previous
factory had a cached instance replaces the factory *together with its
cache*: the next `get_instance(n)` constructs a fresh instance via the new
factory and the previously cached instance is no longer returned. -/
theorem singleton_register_factory_replaces_cache
    (r : SingletonRegistry) (n : String) (f newF : SingletonFactory)
    (i ctr : Nat) (hf : r.factories.lookup n = some f)
    (hc : f.cached = some i) (hnew : newF.cached = none) (hlt : i < ctr) :
    ∃ r', (r.register_factory n newF).get_instance n ctr =
        .ok (ctr, r', ctr + 1) ∧ ctr ≠ i := by
  refine ⟨⟨pyDictInsert (pyDictInsert r.factories n newF) n
    { newF with cached := some ctr }⟩, ?_, by omega⟩
  simp [SingletonRegistry.register_factory, SingletonRegistry.get_instance,
    lookup_pyDictInsert_self, SingletonFactory.get_instance, hnew]

/-- Witness for the amended C3. -/
theorem singleton_register_factory_replaces_cache_witness :
    ∃ r', ((SingletonRegistry.mk [("x", ⟨0, some 5⟩)]).register_factory "x"
        (create_singleton_factory 1)).get_instance "x" 6 =
      .ok (6, r', 6 + 1) ∧ 6 ≠ 5 :=
  singleton_register_factory_replaces_cache ⟨[("x", ⟨0, some 5⟩)]⟩ "x"
    ⟨0, some 5⟩ (create_singleton_factory 1) 5 6 (by decide) rfl rfl
    (by omega)

/-! ## BaseService (`src/backend/core/services/base.py`) -/

/-- A `BaseService` instance: `_feature_name` and the `_is_initialized`
flag (exposed by the `is_initialized` property). -/
structure BaseService where
  feature_name : String
  is_initialized : Bool
deriving DecidableEq, Repr

/-- `BaseService.__init__`: `_is_initialized` starts out false. -/
def BaseService.new (feature_name : String) : BaseService :=
  ⟨feature_name, false⟩

/-- `BaseService.initialize()`, with the outcome of the feature-specific
hook `_initialize_specific()` passed explicitly (`.error ()` = the hook
raised).  The `try/except` catches the hook's exception, so `initialize`
itself is total: it returns a `Bool`, never raising. -/
def BaseService.initialize_ (s : BaseService) (hook : Except Unit Unit) :
    Bool × BaseService :=
  match hook with
  | .ok _ => (true, { s with is_initialized := true })
  | .error _ => (false, s)

/-- A sequence of `initialize()` calls with the given hook outcomes. -/
def initializeCalls (s : BaseService) : List (Except Unit Unit) → BaseService
  | [] => s
  | h :: rest => initializeCalls (s.initialize_ h).2 rest

theorem initializeCalls_preserves_true (hooks : List (Except Unit Unit)) :
    ∀ s : BaseService, s.is_initialized = true →
      (initializeCalls s hooks).is_initialized = true := by
  induction hooks with
  | nil => intro s hs; simpa [initializeCalls] using hs
  | cons h rest ih =>
    intro s hs
    cases h with
    | ok u => exact ih _ (by simp [initializeCalls, BaseService.initialize_])
    | error u =>
      exact ih _ (by simpa [initializeCalls, BaseService.initialize_] using hs)

theorem initializeCalls_true_iff (hooks : List (Except Unit Unit)) :
    ∀ s : BaseService, s.is_initialized = false →
      ((initializeCalls s hooks).is_initialized = true ↔ .ok () ∈ hooks) := by
  induction hooks with
  | nil =>
    intro s hs
    simpa [initializeCalls] using hs
  | cons h rest ih =>
    intro s hs
    cases h with
    | ok u =>
      have hpres := initializeCalls_preserves_true rest
        { s with is_initialized := true } rfl
      simp [initializeCalls, BaseService.initialize_, hpres]
    | error u =>
      simp only [initializeCalls, BaseService.initialize_, List.mem_cons]
      rw [ih s hs]
      simp

/-- C10: `BaseService.initialize` never propagates the hook's exception:
it returns true and sets `is_initialized` iff the hook succeeded, leaves
`is_initialized` false when the hook raises, and over any sequence of calls
starting from a fresh service, `is_initialized` holds iff some prior call
succeeded. -/
theorem base_service_initialize_catches
    (s : BaseService) (hook : Except Unit Unit)
    (hs : s.is_initialized = false) :
    ((s.initialize_ hook).1 = true ↔ hook = .ok ()) ∧
    (hook = .error () → (s.initialize_ hook).2.is_initialized = false) ∧
    (hook = .ok () → (s.initialize_ hook).2.is_initialized = true) ∧
    (∀ hooks, (initializeCalls s hooks).is_initialized = true ↔
      .ok () ∈ hooks) := by
  refine ⟨?_, ?_, ?_, fun hooks => initializeCalls_true_iff hooks s hs⟩
  · cases hook with
    | ok u => simp [BaseService.initialize_]
    | error u => simp [BaseService.initialize_]
  · intro h; subst h; simpa [BaseService.initialize_] using hs
  · intro h; subst h; simp [BaseService.initialize_]

/-- Witness for C10 at the fresh service `BaseService.new "health"` with a
raising hook and then a succeeding one. -/
theorem base_service_initialize_catches_witness :
    (((BaseService.new "health").initialize_ (.error ())).1 = true ↔
      (.error () : Except Unit Unit) = .ok ()) ∧
    ((.error () : Except Unit Unit) = .error () →
      ((BaseService.new "health").initialize_ (.error ())).2.is_initialized =
        false) ∧
    ((.error () : Except Unit Unit) = .ok () →
      ((BaseService.new "health").initialize_ (.error ())).2.is_initialized =
        true) ∧
    (∀ hooks, (initializeCalls (BaseService.new "health") hooks).is_initialized
      = true ↔ .ok () ∈ hooks) :=
  base_service_initialize_catches (BaseService.new "health") (.error ()) rfl

/-! ## ServiceDetector (`src/backend/core/di/service_detector.py`) -/

/-- The outcome of a service class's `initialize()` call:
`_initialize_specific` succeeds, returns normally but `initialize` yields
false, or raises. -/
inductive InitOutcome where
  | ok | retFalse | raises
deriving DecidableEq, Repr

/-- A Python class as seen by the DI core: the three detector criteria
(`issubclass(·, BaseService)`, identity with `BaseService`, presence of the
`_service_name` marker), the marker's value `sname`, the class's identity
`classId` (used as the container key for `type(instance)`), the behaviour
of `initialize()` on its instances, and the capabilities its instances
implement (as found by the interface detection strategy). -/
structure PyClass where
  subBase : Bool
  isBase : Bool
  hasName : Bool
  sname : String
  classId : Nat
  initOutcome : InitOutcome
  interfaces : List Nat
deriving DecidableEq, Repr

/-- A loaded Python module: members in declaration order, each a name
bound either to a class or to a non-class object (`none`). -/
def PyModule : Type := List (String × Option PyClass)

/-- The class-valued members of a module, in declaration order (the raw
module dict before `inspect.getmembers` sorts it). -/
def classMembers (m : PyModule) : List (String × PyClass) :=
  m.filterMap (fun p => p.2.map (fun c => (p.1, c)))

/-- Lexicographic comparison of strings by character code point, the order
`sorted` (and hence `inspect.getmembers`) uses on member names. -/
def strLeB : List Char → List Char → Bool
  | [], _ => true
  | _ :: _, [] => false
  | a :: as, b :: bs =>
    if a.toNat < b.toNat then true
    else if b.toNat < a.toNat then false
    else strLeB as bs

/-- Name order on module members. -/
def nameLe (p q : String × PyClass) : Bool :=
  strLeB p.1.data q.1.data

/-- One insertion step of the name sort performed by
`inspect.getmembers`. -/
def insertByName (p : String × PyClass) :
    List (String × PyClass) → List (String × PyClass)
  | [] => [p]
  | q :: rest =>
    if nameLe p q then p :: q :: rest else q :: insertByName p rest

/-- `inspect.getmembers` returns members sorted by name; modelled as an
insertion sort on the member names. -/
def sortByName (l : List (String × PyClass)) : List (String × PyClass) :=
  l.foldr insertByName []

/-- `BaseServiceDetector.is_service_class`: subclass of `BaseService`, not
`BaseService` itself, and carrying the `_service_name` marker. -/
def is_service_class (c : PyClass) : Bool :=
  c.subBase && !c.isBase && c.hasName

/-- `BaseServiceDetector.get_service_classes`: iterate
`inspect.getmembers(module, inspect.isclass)` (name-sorted class members)
and keep those passing `is_service_class`. -/
def get_service_classes (m : PyModule) : List PyClass :=
  ((sortByName (classMembers m)).filter (fun p => is_service_class p.2)).map
    Prod.snd

/-! ### Order lemmas for the name sort -/

theorem strLeB_trans : ∀ as bs cs : List Char, strLeB as bs = true →
    strLeB bs cs = true → strLeB as cs = true := by
  intro as
  induction as with
  | nil => intro bs cs _ _; rfl
  | cons a as ih =>
    intro bs cs h1 h2
    cases bs with
    | nil => simp [strLeB] at h1
    | cons b bs =>
      cases cs with
      | nil => simp [strLeB] at h2
      | cons c cs =>
        simp only [strLeB] at h1 h2 ⊢
        by_cases hab : a.toNat < b.toNat
        · by_cases hbc : b.toNat < c.toNat
          · simp [show a.toNat < c.toNat by omega]
          · by_cases hcb : c.toNat < b.toNat
            · simp [hbc, hcb] at h2
            · simp [show a.toNat < c.toNat by omega]
        · by_cases hba : b.toNat < a.toNat
          · simp [hab, hba] at h1
          · rw [if_neg hab, if_neg hba] at h1
            by_cases hbc : b.toNat < c.toNat
            · simp [show a.toNat < c.toNat by omega]
            · by_cases hcb : c.toNat < b.toNat
              · simp [hbc, hcb] at h2
              · rw [if_neg hbc, if_neg hcb] at h2
                rw [if_neg (by omega : ¬a.toNat < c.toNat),
                  if_neg (by omega : ¬c.toNat < a.toNat)]
                exact ih bs cs h1 h2

theorem strLeB_total : ∀ as bs : List Char,
    strLeB as bs = true ∨ strLeB bs as = true := by
  intro as
  induction as with
  | nil => intro bs; left; rfl
  | cons a as ih =>
    intro bs
    cases bs with
    | nil => right; rfl
    | cons b bs =>
      simp only [strLeB]
      by_cases hab : a.toNat < b.toNat
      · left; simp [hab]
      · by_cases hba : b.toNat < a.toNat
        · right; simp [hba]
        · rcases ih bs with h | h
          · left; simp [hab, hba, h]
          · right; simp [hab, hba, h]

theorem insertByName_perm (p : String × PyClass)
    (l : List (String × PyClass)) : (insertByName p l).Perm (p :: l) := by
  induction l with
  | nil => simp [insertByName]
  | cons q rest ih =>
    by_cases h : nameLe p q = true
    · simp [insertByName, h]
    · simp only [insertByName, if_neg h]
      exact (ih.cons q).trans (List.Perm.swap p q rest)

theorem sortByName_perm (l : List (String × PyClass)) :
    (sortByName l).Perm l := by
  induction l with
  | nil => simp [sortByName]
  | cons p rest ih =>
    exact (insertByName_perm p (sortByName rest)).trans (ih.cons p)

theorem insertByName_sorted (p : String × PyClass)
    (l : List (String × PyClass))
    (h : l.Sorted (fun a b => nameLe a b = true)) :
    (insertByName p l).Sorted (fun a b => nameLe a b = true) := by
  induction l with
  | nil => simp [insertByName]
  | cons q rest ih =>
    rw [List.sorted_cons] at h
    by_cases hpq : nameLe p q = true
    · rw [insertByName, if_pos hpq, List.sorted_cons]
      refine ⟨?_, List.sorted_cons.mpr h⟩
      intro b hb
      rcases List.mem_cons.mp hb with hb | hb
      · exact hb ▸ hpq
      · exact strLeB_trans _ _ _ hpq (h.1 b hb)
    · rw [insertByName, if_neg hpq, List.sorted_cons]
      refine ⟨?_, ih h.2⟩
      intro b hb
      have hb' := (insertByName_perm p rest).mem_iff.mp hb
      rcases List.mem_cons.mp hb' with hb' | hb'
      · rw [hb']
        rcases strLeB_total p.1.data q.1.data with ht | ht
        · exact absurd ht hpq
        · exact ht
      · exact h.1 b hb'

theorem sortByName_sorted (l : List (String × PyClass)) :
    (sortByName l).Sorted (fun a b => nameLe a b = true) := by
  induction l with
  | nil => simp [sortByName]
  | cons p rest ih => exact insertByName_sorted p _ ih

/-- C4 amended: `get_service_classes` returns exactly the class members
satisfying `is_service_class` — but in *alphabetical member-name order*
(the order `inspect.getmembers` produces), not declaration order. -/
theorem get_service_classes_exactly_sorted (m : PyModule) :
    ∃ l : List (String × PyClass),
      l.Perm ((classMembers m).filter (fun p => is_service_class p.2)) ∧
      l.Sorted (fun a b => nameLe a b = true) ∧
      get_service_classes m = l.map Prod.snd ∧
      ∀ c : PyClass, (c ∈ get_service_classes m ↔
        ∃ nm, (nm, c) ∈ classMembers m ∧ is_service_class c = true) := by
  refine ⟨(sortByName (classMembers m)).filter (fun p => is_service_class p.2),
    (sortByName_perm (classMembers m)).filter _,
    (sortByName_sorted (classMembers m)).filter _, rfl, ?_⟩
  intro c
  unfold get_service_classes
  constructor
  · intro hc
    rcases List.mem_map.mp hc with ⟨p, hp, hpc⟩
    have hp' := List.mem_filter.mp hp
    have hmem := (sortByName_perm (classMembers m)).mem_iff.mp hp'.1
    exact ⟨p.1, by rwa [show (p.1, c) = p by rw [← hpc]],
      by rw [← hpc]; exact hp'.2⟩
  · rintro ⟨nm, hmem, hsc⟩
    refine List.mem_map.mpr ⟨(nm, c), List.mem_filter.mpr ⟨?_, hsc⟩, rfl⟩
    exact (sortByName_perm (classMembers m)).mem_iff.mpr hmem

/-- Counterexample for C4 as stated: a module declaring the qualifying
service classes under names `"zzz"` then `"aaa"`; `get_service_classes`
returns them in alphabetical (not declaration) order. -/
theorem get_service_classes_declaration_order_counterexample :
    get_service_classes
        [("zzz", some ⟨true, false, true, "z", 1, .ok, []⟩),
         ("aaa", some ⟨true, false, true, "a", 2, .ok, []⟩)] ≠
      ((classMembers
        [("zzz", some ⟨true, false, true, "z", 1, .ok, []⟩),
         ("aaa", some ⟨true, false, true, "a", 2, .ok, []⟩)]).filter
        (fun p => is_service_class p.2)).map Prod.snd := by
  decide

/-! ## InterfaceManager (`src/backend/core/di/interface_manager.py`) -/

/-- `InterfaceRegistrationManager._register_single_interface`: calls
`container.register_instance(interface, instance)` inside a `try/except`.
`raises iface = true` models that call throwing for capability `iface`
(caught: a warning is logged and `False` is returned, the container is
unchanged). -/
def registerSingleCapability (raises : Nat → Bool) (cont : Container)
    (iface inst : Nat) : Bool × Container :=
  if raises iface then (false, cont)
  else (true, cont.register_instance iface inst)

/-- The `for interface in interfaces` loop of
`register_service_interfaces`, accumulating `success_count`. -/
def registerCapabilitiesLoop (raises : Nat → Bool) (inst : Nat) :
    List Nat → Nat × Container → Nat × Container
  | [], acc => acc
  | i :: rest, (count, cont) =>
    let r := registerSingleCapability raises cont i inst
    registerCapabilitiesLoop raises inst rest
      (count + (if r.1 then 1 else 0), r.2)

/-- `InterfaceRegistrationManager.register_service_interfaces` for a
service instance whose detected capability list is `interfaces`: registers
each capability best-effort and returns
`success_count == len(interfaces) if interfaces else True`. -/
def register_service_interfaces (raises : Nat → Bool) (cont : Container)
    (interfaces : List Nat) (inst : Nat) : Bool × Container :=
  let r := registerCapabilitiesLoop raises inst interfaces (0, cont)
  (if interfaces.isEmpty then true else r.1 == interfaces.length, r.2)

theorem registerCapabilitiesLoop_count (raises : Nat → Bool) (inst : Nat)
    (l : List Nat) : ∀ count cont,
    (registerCapabilitiesLoop raises inst l (count, cont)).1 =
      count + (l.filter (fun i => !raises i)).length := by
  induction l with
  | nil => intro count cont; simp [registerCapabilitiesLoop]
  | cons i rest ih =>
    intro count cont
    by_cases h : raises i = true
    · simp [registerCapabilitiesLoop, registerSingleCapability, h, ih]
    · simp only [Bool.not_eq_true] at h
      simp [registerCapabilitiesLoop, registerSingleCapability, h, ih]
      omega

theorem lookup_filter_ne {α β : Type} [BEq α] [LawfulBEq α]
    (l : List (α × β)) (i j : α) (hne : (i == j) = false) :
    (l.filter (fun p => !(p.1 == j))).lookup i = l.lookup i := by
  induction l with
  | nil => simp
  | cons q rest ih =>
    by_cases hq : q.1 = j
    · have hiq : (i == q.1) = false := by
        rw [hq]; exact hne
      simp [List.filter, hq, List.lookup, hiq, ih, hne]
    · have hq' : (q.1 == j) = false := by
        exact beq_eq_false_iff_ne.mpr hq
      simp only [List.filter, hq', Bool.not_false]
      unfold List.lookup
      cases hiq : i == q.1 with
      | true => rfl
      | false => exact ih

theorem lookup_pyDictInsert_same_val {α β : Type} [BEq α] [LawfulBEq α]
    (l : List (α × β)) (i j : α) (v : β) (h : l.lookup i = some v) :
    (pyDictInsert l j v).lookup i = some v := by
  unfold pyDictInsert
  unfold List.lookup
  cases hij : i == j with
  | true => rfl
  | false => rw [lookup_filter_ne l i j hij]; exact h

theorem registerCapabilitiesLoop_preserves (raises : Nat → Bool)
    (inst : Nat) (l : List Nat) : ∀ count cont i,
    cont.singletons.lookup i = some inst →
    ((registerCapabilitiesLoop raises inst l (count, cont)).2).singletons.lookup
      i = some inst := by
  induction l with
  | nil => intro count cont i h; simpa [registerCapabilitiesLoop] using h
  | cons j rest ih =>
    intro count cont i h
    by_cases hj : raises j = true
    · simp only [registerCapabilitiesLoop, registerSingleCapability, hj,
        if_true]
      exact ih _ _ _ h
    · simp only [Bool.not_eq_true] at hj
      simp only [registerCapabilitiesLoop, registerSingleCapability, hj,
        Bool.false_eq_true, if_false]
      exact ih _ _ _
        (lookup_pyDictInsert_same_val cont.singletons i j inst h)

theorem registerCapabilitiesLoop_registers (raises : Nat → Bool)
    (inst : Nat) (l : List Nat) : ∀ count cont i, i ∈ l →
    raises i = false →
    ((registerCapabilitiesLoop raises inst l (count, cont)).2).singletons.lookup
      i = some inst := by
  induction l with
  | nil => intro count cont i h; exact absurd h (List.not_mem_nil i)
  | cons j rest ih =>
    intro count cont i hmem hi
    rcases List.mem_cons.mp hmem with rfl | hmem
    · simp only [registerCapabilitiesLoop, registerSingleCapability, hi,
        Bool.false_eq_true, if_false]
      exact registerCapabilitiesLoop_preserves raises inst rest _ _ i
        (lookup_pyDictInsert_self cont.singletons i inst)
    · by_cases hj : raises j = true
      · simp only [registerCapabilitiesLoop, registerSingleCapability, hj,
          if_true]
        exact ih _ _ _ hmem hi
      · simp only [Bool.not_eq_true] at hj
        simp only [registerCapabilitiesLoop, registerSingleCapability, hj,
          Bool.false_eq_true, if_false]
        exact ih _ _ _ hmem hi

/-- C5: `register_service_interfaces` is total (the per-capability
`try/except` means it never raises), returns true iff every detected
capability registered without error (vacuously true for zero
capabilities), and a capability whose registration throws does not abort
the others: every non-throwing capability ends up in the container's
instance table and resolves to the service instance. -/
theorem interface_manager_partial_registration (raises : Nat → Bool)
    (cont : Container) (interfaces : List Nat) (inst : Nat) :
    ((register_service_interfaces raises cont interfaces inst).1 = true ↔
      ∀ i ∈ interfaces, raises i = false) ∧
    (interfaces = [] →
      (register_service_interfaces raises cont interfaces inst).1 = true) ∧
    (∀ i ∈ interfaces, raises i = false → ∀ ctr,
      ((register_service_interfaces raises cont interfaces inst).2).resolve
        i ctr =
      .ok (inst, (register_service_interfaces raises cont interfaces inst).2,
        ctr)) := by
  refine ⟨?_, ?_, ?_⟩
  · unfold register_service_interfaces
    cases interfaces with
    | nil => simp
    | cons j rest =>
      simp only [List.isEmpty_cons, Bool.false_eq_true, if_false,
        registerCapabilitiesLoop_count, Nat.zero_add, beq_iff_eq]
      rw [List.filter_length_eq_length]
      simp
  · intro h; subst h; simp [register_service_interfaces]
  · intro i hmem hi ctr
    have hlook := registerCapabilitiesLoop_registers raises inst interfaces
      0 cont i hmem hi
    have : ((register_service_interfaces raises cont interfaces
        inst).2).singletons.lookup i = some inst := hlook
    simp [Container.resolve, this]

/-- Witness for C5: capabilities `[1, 2]` where registering capability `2`
throws; capability `1` still resolves to the instance, and with zero
capabilities the call reports success. -/
theorem interface_manager_partial_registration_witness :
    (((register_service_interfaces (fun i => i == 2) Container.empty [1, 2]
        42).2).resolve 1 99 =
      .ok (42, (register_service_interfaces (fun i => i == 2) Container.empty
        [1, 2] 42).2, 99)) ∧
    (register_service_interfaces (fun i => i == 2) Container.empty [] 42).1 =
      true :=
  ⟨(interface_manager_partial_registration (fun i => i == 2) Container.empty
      [1, 2] 42).2.2 1 (by decide) (by decide) 99,
    (interface_manager_partial_registration (fun i => i == 2) Container.empty
      [] 42).2.1 rfl⟩

/-! ## ServiceRegistry and ServiceDiscovery
(`src/backend/core/di/registry.py`) -/

/-- Combined mutable state of a `ServiceRegistry` (its `_services` dict of
name ↦ service instance) and the container it mirrors into, plus the
fresh-object allocator counter. -/
structure RegState where
  registry : List (String × Nat)
  container : Container
  ctr : Nat
deriving DecidableEq, Repr

/-- `ServiceRegistry.register_service(name, instance)`: stores the
instance under `name` (dict assignment, last writer wins) and mirrors it
into the container keyed by `type(instance)` (= `classId`).  Neither dict
assignment can raise, so the `except` branch is dead and the call returns
true. -/
def register_service (st : RegState) (name : String) (classId inst : Nat) :
    Bool × RegState :=
  (true, { st with
    registry := pyDictInsert st.registry name inst,
    container := st.container.register_instance classId inst })

/-- `ServiceDiscovery._register_service_class`: instantiate the class
(allocating a fresh object id), call `initialize()` (returning false or
raising aborts this class — the `except` catches the exception), read the
`_service_name` marker (an `AttributeError` for a missing marker is also
caught), register with the registry, then register the service's
capabilities (the boolean result is discarded by the source) and set up
routes (`RouteManager` swallows all its errors and does not touch this
state). -/
def registerServiceClass (raises : Nat → Bool) (c : PyClass) (st : RegState) :
    Bool × RegState :=
  let inst := st.ctr
  let st1 : RegState := { st with ctr := st.ctr + 1 }
  match c.initOutcome with
  | .raises => (false, st1)
  | .retFalse => (false, st1)
  | .ok =>
    if c.hasName then
      let r := register_service st1 c.sname c.classId inst
      if r.1 then
        let ri := register_service_interfaces raises r.2.container
          c.interfaces inst
        (true, { r.2 with container := ri.2 })
      else (false, r.2)
    else (false, st1)

/-- The `for service_class in service_classes` loop of
`discover_and_register_services`: the first class that fails to register
makes the whole call return false. -/
def registerClassesLoop (raises : Nat → Bool) :
    List PyClass → RegState → Bool × RegState
  | [], st => (true, st)
  | c :: rest, st =>
    let r := registerServiceClass raises c st
    if r.1 then registerClassesLoop raises rest r.2 else (false, r.2)

/-- `ServiceDiscovery.discover_and_register_services(module_path)`, with
the loaded service module passed explicitly: `none` models the
`ImportError` path of `_load_service_module` ("not having a service module
is acceptable"). -/
def discover_and_register_services (raises : Nat → Bool)
    (serviceModule : Option PyModule) (st : RegState) : Bool × RegState :=
  match serviceModule with
  | none => (true, st)
  | some m => registerClassesLoop raises (get_service_classes m) st

/-- C6: discovery of a namespace whose service module is absent, or whose
module has no qualifying service definitions, succeeds and leaves the
registry state untouched. -/
theorem discovery_absence_is_success (raises : Nat → Bool) (st : RegState) :
    (discover_and_register_services raises none st = (true, st)) ∧
    (∀ m : PyModule, get_service_classes m = [] →
      discover_and_register_services raises (some m) st = (true, st)) := by
  constructor
  · rfl
  · intro m hm
    simp [discover_and_register_services, hm, registerClassesLoop]

/-- Witness for C6: a module whose only members are a non-class object and
a class lacking the service-name marker yields no service classes, and
discovery on it (and on the absent module) returns success with the state
unchanged. -/
theorem discovery_absence_is_success_witness :
    (discover_and_register_services (fun _ => false) none
      ⟨[], Container.empty, 0⟩ = (true, ⟨[], Container.empty, 0⟩)) ∧
    (discover_and_register_services (fun _ => false)
      (some [("helper", none),
             ("Unmarked", some ⟨true, false, false, "u", 3, .ok, []⟩)])
      ⟨[], Container.empty, 0⟩ = (true, ⟨[], Container.empty, 0⟩)) :=
  ⟨(discovery_absence_is_success (fun _ => false) ⟨[], Container.empty, 0⟩).1,
    (discovery_absence_is_success (fun _ => false)
      ⟨[], Container.empty, 0⟩).2
      [("helper", none), ("Unmarked", some ⟨true, false, false, "u", 3, .ok, []⟩)]
      (by decide)⟩

/-- Counterexample for C2 as stated: a feature module declaring service
classes `"AaaService"` (initializes fine, service name `"aaa"`) and
`"BbbService"` (whose `initialize()` returns false).  The call returns
false, but the first service *does* appear in the ServiceRegistry
afterwards — registration is not all-or-nothing. -/
theorem discovery_no_partial_commit_counterexample :
    ¬ (((discover_and_register_services (fun _ => false)
          (some [("AaaService", some ⟨true, false, true, "aaa", 1, .ok, []⟩),
                 ("BbbService", some ⟨true, false, true, "bbb", 2, .retFalse, []⟩)])
          ⟨[], Container.empty, 0⟩).1 = false) ∧
        ((discover_and_register_services (fun _ => false)
          (some [("AaaService", some ⟨true, false, true, "aaa", 1, .ok, []⟩),
                 ("BbbService", some ⟨true, false, true, "bbb", 2, .retFalse, []⟩)])
          ⟨[], Container.empty, 0⟩).2.registry.lookup "aaa" = none) ∧
        ((discover_and_register_services (fun _ => false)
          (some [("AaaService", some ⟨true, false, true, "aaa", 1, .ok, []⟩),
                 ("BbbService", some ⟨true, false, true, "bbb", 2, .retFalse, []⟩)])
          ⟨[], Container.empty, 0⟩).2.registry.lookup "bbb" = none)) := by
  decide

/-- C2 amended: when the first detected service registers successfully and
the second fails `initialize()`, `discover_and_register_services` returns
false and the failing service is not recorded — but the first service
*remains* in the ServiceRegistry (earlier registrations are committed, not
rolled back). -/
theorem discovery_partial_commit (raises : Nat → Bool) (m : PyModule)
    (a b : PyClass) (st : RegState)
    (hm : get_service_classes m = [a, b])
    (ha : a.initOutcome = .ok) (han : a.hasName = true)
    (hb : b.initOutcome ≠ .ok) :
    ∃ cont' : Container,
      discover_and_register_services raises (some m) st =
        (false, ⟨pyDictInsert st.registry a.sname st.ctr, cont',
          st.ctr + 2⟩) ∧
      (pyDictInsert st.registry a.sname st.ctr).lookup a.sname =
        some st.ctr ∧
      ((b.sname == a.sname) = false → st.registry.lookup b.sname = none →
        (pyDictInsert st.registry a.sname st.ctr).lookup b.sname = none) := by
  refine ⟨(register_service_interfaces raises
    (st.container.register_instance a.classId st.ctr) a.interfaces st.ctr).2,
    ?_, lookup_pyDictInsert_self _ _ _,
    fun hne hnone => lookup_pyDictInsert_ne _ _ _ _ hne hnone⟩
  simp only [discover_and_register_services, hm, registerClassesLoop,
    registerServiceClass, ha, han, if_true, register_service]
  cases hio : b.initOutcome with
  | ok => exact absurd hio hb
  | retFalse => rfl
  | raises => rfl

/-- Witness for the amended C2, at the same two-service module as the
counterexample. -/
theorem discovery_partial_commit_witness :
    ∃ cont' : Container,
      discover_and_register_services (fun _ => false)
          (some [("AaaService", some ⟨true, false, true, "aaa", 1, .ok, []⟩),
                 ("BbbService", some ⟨true, false, true, "bbb", 2, .retFalse, []⟩)])
          ⟨[], Container.empty, 0⟩ =
        (false, ⟨pyDictInsert [] "aaa" 0, cont', 0 + 2⟩) ∧
      (pyDictInsert [] "aaa" 0).lookup "aaa" = some 0 ∧
      ((("bbb" : String) == "aaa") = false →
        List.lookup "bbb" ([] : List (String × Nat)) = none →
        (pyDictInsert [] "aaa" 0).lookup "bbb" = none) :=
  discovery_partial_commit (fun _ => false)
    [("AaaService", some ⟨true, false, true, "aaa", 1, .ok, []⟩),
     ("BbbService", some ⟨true, false, true, "bbb", 2, .retFalse, []⟩)]
    ⟨true, false, true, "aaa", 1, .ok, []⟩
    ⟨true, false, true, "bbb", 2, .retFalse, []⟩
    ⟨[], Container.empty, 0⟩ (by decide) rfl rfl (by decide)

/-! ## FeatureManager (`src/backend/core/di/registry.py`, bottom half) -/

/-- What `FeatureManager` records per registered feature.  The source also
stores `registered_at = datetime.now().isoformat()`; wall-clock time is
outside the model, so only its presence (via the whole entry) is
captured. -/
structure FeatureEntry where
  module_path : String
  status : String
deriving DecidableEq, Repr

/-- `FeatureManager` state (`_features`) together with the shared
service-registry state its discoveries mutate. -/
structure FeatState where
  features : List (String × FeatureEntry)
  reg : RegState
deriving DecidableEq, Repr

/-- `FeatureManager.register_features(feature_modules)`: sequentially runs
discovery per `(feature_name, module_path)` entry; on success records the
feature as active, on the first failure returns false without attempting
the remaining features.  `env` maps a module path to its loaded service
module (`none` = `ImportError`). -/
def register_features (raises : Nat → Bool)
    (env : String → Option PyModule) :
    List (String × String) → FeatState → Bool × FeatState
  | [], _st => (true, _st)
  | (fname, mpath) :: rest, st =>
    let r := discover_and_register_services raises (env mpath) st.reg
    if r.1 then
      register_features raises env rest
        { features := pyDictInsert st.features fname ⟨mpath, "active"⟩,
          reg := r.2 }
    else (false, { st with reg := r.2 })

/-- The dict returned by `FeatureManager.get_features_status()`. -/
structure FeaturesStatus where
  total_features : Nat
  features : List (String × FeatureEntry)
  services : List String
deriving DecidableEq, Repr

/-- `FeatureManager.get_features_status()`. -/
def get_features_status (st : FeatState) : FeaturesStatus :=
  ⟨st.features.length, st.features, st.reg.registry.map Prod.fst⟩

/-- C7: `register_features` is sequential and fail-fast: (1) when
discovery of the head feature fails, it returns false immediately — the
result does not depend on the remaining features, which are never
attempted, and the failing feature is not recorded while previously
recorded features stay; (2) when discovery of the head succeeds, the head
is recorded as active and processing continues with the rest; (3) for a
single declared feature whose only service's `initialize()` raises,
`register_features` returns false and `get_features_status` afterwards
reports `total_features = 0`. -/
theorem feature_manager_fail_fast (raises : Nat → Bool)
    (env : String → Option PyModule) :
    (∀ fname mpath rest (st : FeatState),
      (discover_and_register_services raises (env mpath) st.reg).1 = false →
      register_features raises env ((fname, mpath) :: rest) st =
        (false, { st with
          reg := (discover_and_register_services raises (env mpath)
            st.reg).2 })) ∧
    (∀ fname mpath rest (st : FeatState),
      (discover_and_register_services raises (env mpath) st.reg).1 = true →
      register_features raises env ((fname, mpath) :: rest) st =
        register_features raises env rest
          { features := pyDictInsert st.features fname ⟨mpath, "active"⟩,
            reg := (discover_and_register_services raises (env mpath)
              st.reg).2 }) ∧
    (∀ fname mpath m c (st : FeatState), st.features = [] →
      env mpath = some m → get_service_classes m = [c] →
      c.initOutcome = .raises →
      (register_features raises env [(fname, mpath)] st).1 = false ∧
      (get_features_status
        (register_features raises env [(fname, mpath)] st).2).total_features
        = 0) := by
  refine ⟨?_, ?_, ?_⟩
  · intro fname mpath rest st h
    simp [register_features, h]
  · intro fname mpath rest st h
    simp [register_features, h]
  · intro fname mpath m c st hf henv hm hc
    have hdisc : discover_and_register_services raises (env mpath) st.reg =
        (false, { st.reg with ctr := st.reg.ctr + 1 }) := by
      simp [discover_and_register_services, henv, hm, registerClassesLoop,
        registerServiceClass, hc]
    constructor
    · simp [register_features, hdisc]
    · simp [register_features, hdisc, get_features_status, hf]

/-- Witness for C7: the single feature `("health", "features.health")`
whose service module declares one qualifying class whose `initialize()`
raises. -/
theorem feature_manager_fail_fast_witness :
    (register_features (fun _ => false)
      (fun p => if p = "features.health" then
        some [("HealthService", some ⟨true, false, true, "health", 1,
          .raises, []⟩)] else none)
      [("health", "features.health")] ⟨[], ⟨[], Container.empty, 0⟩⟩).1 =
      false ∧
    (get_features_status (register_features (fun _ => false)
      (fun p => if p = "features.health" then
        some [("HealthService", some ⟨true, false, true, "health", 1,
          .raises, []⟩)] else none)
      [("health", "features.health")]
      ⟨[], ⟨[], Container.empty, 0⟩⟩).2).total_features = 0 :=
  (feature_manager_fail_fast (fun _ => false)
    (fun p => if p = "features.health" then
      some [("HealthService", some ⟨true, false, true, "health", 1,
        .raises, []⟩)] else none)).2.2
    "health" "features.health"
    [("HealthService", some ⟨true, false, true, "health", 1, .raises, []⟩)]
    ⟨true, false, true, "health", 1, .raises, []⟩
    ⟨[], ⟨[], Container.empty, 0⟩⟩ rfl (by simp) (by decide) rfl


